import Mathlib

/-!
Shallow embedding of the stoplight-vscode-extension core
(`src/fileDetection.ts`, `src/fileReader.ts`, and the `HttpServer` /
`FileWatcher` / `PreviewManager` modules concatenated in the sources).

Conventions:
* JavaScript strings are Lean `String`s; `Buffer.from(s)` is modelled by an
  explicit UTF-8 byte encoder; machine arithmetic stays in `Nat`/`Int`.
* `Map<string, V>` is modelled by an association list with first-match
  lookup, replace-first `set` and filter-all `delete`.
* JavaScript truthiness on optional numbers (`a || b`) is modelled by
  `jsOr`, which treats `undefined` and `0` as falsy.
* Fallible host operations (file system reads) are inputs: a file system is
  a function from a path to an `Except`/`Option` result.
-/

namespace Stoplight

/-! ### Association-list model of JavaScript `Map` -/

/-- First-match lookup, as `Map.get` (`none` models `undefined`). -/
def mlookup (m : List (String × α)) (k : String) : Option α :=
  match m with
  | [] => none
  | (k', v) :: rest => if k' = k then some v else mlookup rest k

/-- `Map.set`: replace the first binding of `k`, or append a new one. -/
def mset (m : List (String × α)) (k : String) (v : α) : List (String × α) :=
  match m with
  | [] => [(k, v)]
  | (k', v') :: rest => if k' = k then (k, v) :: rest else (k', v') :: mset rest k v

/-- `Map.delete`: remove every binding of `k`. -/
def merase (m : List (String × α)) (k : String) : List (String × α) :=
  m.filter (fun kv => kv.1 ≠ k)

/-- Number of bindings of key `k` present in the map. -/
def mcount (m : List (String × α)) (k : String) : Nat :=
  (m.filter (fun kv => kv.1 = k)).length

/-! ### File Classifier (`fileDetection.ts`) -/

/-- `OPENAPI_EXTENSIONS = ['.yaml', '.yml', '.json']` -/
def OPENAPI_EXTENSIONS : List String := [".yaml", ".yml", ".json"]

/-- `uri.fsPath.toLowerCase()` (ASCII lowering; extension characters are ASCII). -/
def toLowerStr (s : String) : String := String.mk (s.data.map Char.toLower)

/-- `hasOpenApiExtension`: the lowercased path ends in `.yaml`, `.yml` or `.json`. -/
def hasOpenApiExtension (fsPath : String) : Bool :=
  let p := (toLowerStr fsPath).data
  OPENAPI_EXTENSIONS.any (fun ext => ext.data.isSuffixOf p)

/-- JavaScript `\s` (ASCII portion: space, tab, newline, CR, VT, FF). -/
def jsSpace (c : Char) : Bool :=
  c = ' ' || c = '\t' || c = '\n' || c = '\r' || c = '\x0b' || c = '\x0c'

/-- `["']` -/
def jsQuote (c : Char) : Bool := c = '"' || c = '\''

/-- `[\d.]` -/
def digitDot (c : Char) : Bool := c.isDigit || c = '.'

/-- Consume `\s*` greedily. -/
def skipWs : List Char → List Char
  | [] => []
  | c :: rest => if jsSpace c then skipWs rest else c :: rest

/-- Consume `["']?` greedily. -/
def optQuote : List Char → List Char
  | [] => []
  | c :: rest => if jsQuote c then rest else c :: rest

/-- Case-insensitively consume a literal keyword. -/
def matchLit : List Char → List Char → Option (List Char)
  | [], l => some l
  | _ :: _, [] => none
  | k :: ks, c :: cs => if c.toLower = k then matchLit ks cs else none

/-- Match `(openapi|swagger)` case-insensitively. -/
def matchKeyword (l : List Char) : Option (List Char) :=
  match matchLit "openapi".data l with
  | some rest => some rest
  | none => matchLit "swagger".data l

/-- One attempt of `OPENAPI_MARKER_REGEX` anchored at the head of `l`:
`["']?\s*(openapi|swagger)\s*["']?\s*:\s*['"]?[\d.]+['"]?`.
The trailing `['"]?` always succeeds, and `[\d.]+` succeeds iff one
digit-or-dot follows, so only the head character is inspected there. -/
def markerMatchAt (l : List Char) : Bool :=
  let l := skipWs (optQuote l)
  match matchKeyword l with
  | none => false
  | some l =>
    match skipWs (optQuote (skipWs l)) with
    | ':' :: l =>
      match optQuote (skipWs l) with
      | c :: _ => digitDot c
      | [] => false
    | _ => false

/-- Try the anchored matcher at every start position. -/
def anyStart (p : List Char → Bool) : List Char → Bool
  | [] => p []
  | c :: rest => p (c :: rest) || anyStart p rest

/-- `hasOpenApiMarker`: `OPENAPI_MARKER_REGEX.test(content)`. -/
def hasOpenApiMarker (content : String) : Bool :=
  anyStart markerMatchAt content.data

/-- The host file system seen by `isOpenApiDocument`: a path either opens to
text content or fails (exception branch). -/
def FileSys := String → Option String

/-- `isOpenApiDocument`: extension gate first, then open the document and
test the marker; any read failure yields `false`. -/
def isOpenApiDocument (fs : FileSys) (fsPath : String) : Bool :=
  if !hasOpenApiExtension fsPath then
    false
  else
    match fs fsPath with
    | some content => hasOpenApiMarker content
    | none => false

/-! ### `HttpServer` identifier derivation (`Buffer.from(uri).toString('base64')
.replace(/[^a-zA-Z0-9]/g, '').substring(0, 32)`) -/

/-- UTF-8 bytes of one code point (`Buffer.from` encodes UTF-8). -/
def utf8Bytes (c : Char) : List Nat :=
  let n := c.toNat
  if n < 128 then [n]
  else if n < 2048 then [192 + n / 64, 128 + n % 64]
  else if n < 65536 then [224 + n / 4096, 128 + (n / 64) % 64, 128 + n % 64]
  else [240 + n / 262144, 128 + (n / 4096) % 64, 128 + (n / 64) % 64, 128 + n % 64]

/-- UTF-8 bytes of a string. -/
def strBytes (s : String) : List Nat := (s.data.map utf8Bytes).flatten

/-- The standard base64 alphabet. -/
def b64Alphabet : List Char :=
  "ABCDEFGHIJKLMNOPQRSTUVWXYZabcdefghijklmnopqrstuvwxyz0123456789+/".data

def b64Char (n : Nat) : Char := b64Alphabet.getD n 'A'

/-- Base64 encoding with `=` padding, 3 bytes → 4 characters. -/
def b64Encode : List Nat → List Char
  | b1 :: b2 :: b3 :: rest =>
      b64Char (b1 / 4) :: b64Char (b1 % 4 * 16 + b2 / 16) ::
      b64Char (b2 % 16 * 4 + b3 / 64) :: b64Char (b3 % 64) :: b64Encode rest
  | [b1, b2] =>
      [b64Char (b1 / 4), b64Char (b1 % 4 * 16 + b2 / 16), b64Char (b2 % 16 * 4), '=']
  | [b1] => [b64Char (b1 / 4), b64Char (b1 % 4 * 16), '=', '=']
  | [] => []

/-- `[a-zA-Z0-9]` -/
def jsAlphanum (c : Char) : Bool :=
  ('a' ≤ c && c ≤ 'z') || ('A' ≤ c && c ≤ 'Z') || ('0' ≤ c && c ≤ '9')

/-- The opaque document id derived (identically) by `registerContent`,
`updateContent` and `removeContent`: base64 of the URI's bytes, stripped of
non-alphanumerics, truncated to 32 characters. -/
def deriveDocId (documentUri : String) : String :=
  String.mk (((b64Encode (strBytes documentUri)).filter jsAlphanum).take 32)

/-! ### `HttpServer` (unnamed module `HttpServer`) -/

/-- `getServerUrl()`: the base URL of the running server. -/
def getServerUrl (port : Nat) : String := "http://localhost:" ++ toString port

/-- `registerContent(documentUri, content)`: store the text under the derived
id and return the fetchable URL. The first component is the updated
`contentMap`, the second the returned URL. -/
def registerContent (port : Nat) (cm : List (String × String))
    (documentUri content : String) : List (String × String) × String :=
  let docId := deriveDocId documentUri
  (mset cm docId content, getServerUrl port ++ "/doc/" ++ docId)

/-- `updateContent(documentUri, content)`: `contentMap.set(docId, content)`,
unconditionally. -/
def updateContent (cm : List (String × String)) (documentUri content : String) :
    List (String × String) :=
  mset cm (deriveDocId documentUri) content

/-- `removeContent(documentUri)`: `contentMap.delete(docId)`. -/
def removeContent (cm : List (String × String)) (documentUri : String) :
    List (String × String) :=
  merase cm (deriveDocId documentUri)

/-- An HTTP response as produced by the request handler: status code, body,
and the `Content-Type` header when one is set. -/
structure HttpResponse where
  status : Nat
  body : String
  contentType : Option String
deriving DecidableEq, Repr

/-- The path regex `^\/doc\/([^/]+)`: a literal `/doc/` prefix, then a
greedy capture of one-or-more non-`/` characters. -/
def matchDocPath (url : String) : Option String :=
  match url.data with
  | '/' :: 'd' :: 'o' :: 'c' :: '/' :: rest =>
    let docId := rest.takeWhile (fun c => c ≠ '/')
    if docId.isEmpty then none else some (String.mk docId)
  | _ => none

/-- JavaScript truthiness of `contentMap.get(docId)`: `undefined` and the
empty string are both falsy. -/
def jsFalsyStr : Option String → Bool
  | none => true
  | some s => s = ""

/-- The request handler installed by `start()`. `OPTIONS` answers 200,
non-`GET` 405; an unmatched path or unknown/falsy content 404; otherwise 200
with the stored text and a sniffed content type. -/
def handleRequest (cm : List (String × String)) (method url : String) : HttpResponse :=
  if method = "OPTIONS" then ⟨200, "", none⟩
  else if method ≠ "GET" then ⟨405, "Method Not Allowed", none⟩
  else
    match matchDocPath url with
    | none => ⟨404, "Not Found", none⟩
    | some docId =>
      let content := mlookup cm docId
      if jsFalsyStr content then ⟨404, "Document Not Found", none⟩
      else
        let c := content.getD ""
        let contentType :=
          match c.data.dropWhile jsSpace with
          | '\x7b' :: _ => "application/json"
          | _ => "text/yaml"
        ⟨200, c, some contentType⟩

/-! ### Content Reader (`fileReader.ts`) -/

/-- `FileReadErrorType` -/
inductive FileReadErrorType where
  | NotFound
  | PermissionDenied
  | TooLarge
  | Unknown
deriving DecidableEq, Repr

/-- `FileReadError` (the fields the claims observe: kind and path). -/
structure FileReadError where
  type : FileReadErrorType
  uri : String
deriving DecidableEq, Repr

/-- `FileReadResult` -/
structure FileReadResult where
  success : Bool
  content : Option String
  error : Option FileReadError
deriving DecidableEq, Repr

/-- `FileReader.MAX_FILE_SIZE = 10 * 1024 * 1024` -/
def MAX_FILE_SIZE : Nat := 10 * 1024 * 1024

/-- The raw bytes handed back by `workspace.fs.readFile`: their count
(`byteLength`) and the text that `Buffer.toString('utf8')` would decode. -/
structure RawFile where
  byteLength : Nat
  utf8 : String
deriving DecidableEq, Repr

/-- A host exception, carrying the optional `code` property inspected by
`determineErrorType`. -/
structure JsError where
  code : Option String
deriving DecidableEq, Repr

/-- `determineErrorType` -/
def determineErrorType (e : JsError) : FileReadErrorType :=
  match e.code with
  | some c =>
    if c = "FileNotFound" || c = "ENOENT" then .NotFound
    else if c = "NoPermissions" || c = "EACCES" || c = "EPERM" then .PermissionDenied
    else .Unknown
  | none => .Unknown

/-- The host file system seen by `readFile`: raw bytes or an exception. -/
def ReadFs := String → Except JsError RawFile

/-- `FileReader.readFile`: size ceiling on the raw bytes, then decode. -/
def readFile (fs : ReadFs) (uri : String) : FileReadResult :=
  match fs uri with
  | .ok fileData =>
    if fileData.byteLength > MAX_FILE_SIZE then
      ⟨false, none, some ⟨.TooLarge, uri⟩⟩
    else
      ⟨true, some fileData.utf8, none⟩
  | .error e => ⟨false, none, some ⟨determineErrorType e, uri⟩⟩

/-- A `vscode.TextDocument` as the coordinator sees it: its `uri.toString()`
key, its `uri.fsPath`, and its current full text. -/
structure TextDocument where
  uriString : String
  fsPath : String
  text : String
deriving DecidableEq, Repr

/-- `FileReader.readFromDocument`: `document.getText()` is total in the host
model, so the catch branch is unreachable and the read always succeeds. -/
def readFromDocument (doc : TextDocument) : FileReadResult :=
  ⟨true, some doc.text, none⟩

/-! ### `FileWatcher` (change watcher with debounce) -/

/-- The watcher's mutable fields: the accumulated `disposables` (opaque
subscription handles supplied by the host) and the pending debounce timer,
modelled as the absolute time at which it is scheduled to fire. -/
structure FileWatcher where
  disposables : List Nat
  debounceTimer : Option Nat
  debounceDelay : Nat
deriving DecidableEq, Repr

/-- The three host subscriptions one `watch` call creates: the
`onDidChangeTextDocument` listener, the `onDidDelete` listener, and the
file-system watcher itself. -/
structure WatchSubs where
  changeSub : Nat
  deleteSub : Nat
  fsWatcher : Nat
deriving DecidableEq, Repr

/-- `FileWatcher.watch`: pushes the change listener, the delete listener and
the file-system watcher onto `this.disposables` (in source order). -/
def FileWatcher.watch (w : FileWatcher) (subs : WatchSubs) : FileWatcher :=
  { w with disposables := w.disposables ++ [subs.changeSub, subs.deleteSub, subs.fsWatcher] }

/-- `FileWatcher.dispose`: clears any pending debounce timer and disposes
every accumulated subscription. -/
def FileWatcher.dispose (w : FileWatcher) : FileWatcher :=
  { w with debounceTimer := none, disposables := [] }

/-- The action of the `vscode.Disposable` returned by `watch`: its body is
`() => this.dispose()`, i.e. it disposes the whole watcher instance. -/
def watchHandleDispose (w : FileWatcher) : FileWatcher :=
  FileWatcher.dispose w

/-- One edit event: the time it is raised and the document's full text after
it (the debounced closure reads `event.document.getText()` when it fires). -/
structure Edit where
  time : Nat
  textAfter : String
deriving DecidableEq, Repr

/-- Running state of one watched document's debounce machinery. -/
structure DebounceRun where
  watcher : FileWatcher
  docText : String
  delivered : List String
deriving DecidableEq, Repr

/-- Process one edit event. A pending timer scheduled at or before the
event's time fires first, delivering the document text current at fire time;
then `debounceChange` clears the timer and re-arms it `debounceDelay` after
this edit. -/
def debounceStep (st : DebounceRun) (e : Edit) : DebounceRun :=
  let st :=
    match st.watcher.debounceTimer with
    | some f =>
      if f ≤ e.time then
        { st with delivered := st.delivered ++ [st.docText],
                  watcher := { st.watcher with debounceTimer := none } }
      else st
    | none => st
  { st with docText := e.textAfter,
            watcher := { st.watcher with debounceTimer := some (e.time + st.watcher.debounceDelay) } }

/-- Once the trace ends and time runs on, a still-pending timer fires and
delivers the final document text. -/
def debounceFlush (st : DebounceRun) : List String :=
  match st.watcher.debounceTimer with
  | some _ => st.delivered ++ [st.docText]
  | none => st.delivered

/-- All `onChange` deliveries produced by a fresh watcher observing a
sequence of edits. -/
def runEdits (delay : Nat) (initialText : String) (es : List Edit) : List String :=
  debounceFlush (es.foldl debounceStep ⟨⟨[], none, delay⟩, initialText, []⟩)

/-- Every edit (after the first) of the trace arrives strictly before the
timer re-armed by its predecessor would fire: the whole trace sits inside
one debounce window. -/
def withinWindow (delay : Nat) : List Edit → Bool
  | e1 :: e2 :: rest => decide (e2.time < e1.time + delay) && withinWindow delay (e2 :: rest)
  | _ => true

/-! ### `PreviewManager` (preview coordinator) -/

/-- JavaScript `a || b` on an optional number: `undefined` and `0` are
falsy. `vscode.ViewColumn` values are the nonzero integers
(`Active = -1`, `Beside = -2`, `One = 1`, …). -/
def jsOr (a : Option Int) (b : Int) : Int :=
  match a with
  | some v => if v = 0 then b else v
  | none => b

def ViewColumn.One : Int := 1
def ViewColumn.Two : Int := 2
def ViewColumn.Beside : Int := -2

/-- The host facts `getPreviewColumn` consults: the active editor (if any)
with its column, and the `openapi-preview.previewColumn` setting. -/
structure HostEnv where
  activeEditorColumn : Option (Option Int)
  previewColumnConfig : String
deriving DecidableEq, Repr

/-- `PreviewManager.getPreviewColumn`: no active editor → `Two`; config
`'active'` → the active editor's column (or `One`); otherwise `Beside`. -/
def getPreviewColumn (env : HostEnv) : Int :=
  match env.activeEditorColumn with
  | none => ViewColumn.Two
  | some edCol =>
    if env.previewColumnConfig = "active" then jsOr edCol ViewColumn.One
    else ViewColumn.Beside

/-- One `PreviewPanel` record of the coordinator: the panel's current host
column (`panel.viewColumn`, `none` when hidden), the tracked
`lastViewColumn`, the bound `FileWatcher`, and the previewed document. -/
structure PreviewPanelModel where
  viewColumn : Option Int
  lastViewColumn : Int
  fileWatcher : FileWatcher
  document : TextDocument
deriving DecidableEq, Repr

/-- The coordinator's process-wide state: the session map, the column
memory, and the owned `HttpServer`'s content registry. -/
structure PMState where
  previews : List (String × PreviewPanelModel)
  lastColumnPositions : List (String × Int)
  contentMap : List (String × String)
deriving DecidableEq, Repr

/-- Host inputs consumed during one coordinator call: the facts behind
`getPreviewColumn`, whether `panel.reveal` throws, the subscription handles
a new `FileWatcher.watch` call creates, and the server's port. -/
structure PMEnv where
  host : HostEnv
  revealFails : Bool
  watchSubs : WatchSubs
  port : Nat
deriving DecidableEq, Repr

/-- `PreviewManager.createPreview`: create the panel at the requested
column, bind a fresh `FileWatcher` (debounce 500 ms), record the session and
its column memory entry, then read via `readFromDocument` and either render
the error view (falsy result content — no registration) or register the
content with the `HttpServer`. -/
def createPreview (env : PMEnv) (doc : TextDocument) (viewColumn : Int)
    (st : PMState) : PMState :=
  let documentUri := doc.uriString
  let fileWatcher := FileWatcher.watch ⟨[], none, 500⟩ env.watchSubs
  let previewPanel : PreviewPanelModel :=
    { viewColumn := some viewColumn, lastViewColumn := viewColumn,
      fileWatcher := fileWatcher, document := doc }
  let st1 : PMState :=
    { st with previews := mset st.previews documentUri previewPanel,
              lastColumnPositions := mset st.lastColumnPositions documentUri viewColumn }
  let readResult := readFromDocument doc
  if !readResult.success || jsFalsyStr readResult.content then
    st1
  else
    { st1 with
      contentMap :=
        (registerContent env.port st1.contentMap documentUri (readResult.content.getD "")).1 }

/-- `PreviewManager.disposePreview`: save the panel's current column into
column memory (when defined), remove the server entry, dispose the watcher
and the disposables, and delete the session — column memory is kept. -/
def disposePreview (st : PMState) (documentUri : String) : PMState :=
  match mlookup st.previews documentUri with
  | none => st
  | some preview =>
    let lcp :=
      match preview.viewColumn with
      | some c => mset st.lastColumnPositions documentUri c
      | none => st.lastColumnPositions
    { previews := merase st.previews documentUri,
      lastColumnPositions := lcp,
      contentMap := removeContent st.contentMap documentUri }

/-- `PreviewManager.createOrShowPreview`: reveal an existing session's panel
(recreating it from saved state if the reveal throws), else resolve the
target column — explicit hint, then column memory, then
`getPreviewColumn` — and create a new session. -/
def createOrShowPreview (env : PMEnv) (doc : TextDocument)
    (viewColumn : Option Int) (st : PMState) : PMState :=
  let documentUri := doc.uriString
  match mlookup st.previews documentUri with
  | some _existing =>
    if env.revealFails then
      let st1 := disposePreview st documentUri
      let columnToUse :=
        jsOr viewColumn (jsOr (mlookup st1.lastColumnPositions documentUri) (getPreviewColumn env.host))
      createPreview env doc columnToUse st1
    else
      st
  | none =>
    let columnToUse :=
      jsOr viewColumn (jsOr (mlookup st.lastColumnPositions documentUri) (getPreviewColumn env.host))
    createPreview env doc columnToUse st

/-- The `onDidChangeViewState` handler: when the host reports the panel in a
defined column, track it on the session and in column memory. -/
def onViewStateChange (st : PMState) (documentUri : String)
    (newColumn : Option Int) : PMState :=
  match newColumn with
  | some c =>
    match mlookup st.previews documentUri with
    | some preview =>
      { st with
        previews := mset st.previews documentUri
          { preview with viewColumn := some c, lastViewColumn := c },
        lastColumnPositions := mset st.lastColumnPositions documentUri c }
    | none => st
  | none => st

/-! ### Map lemmas -/

theorem mlookup_mset_self (m : List (String × α)) (k : String) (v : α) :
    mlookup (mset m k v) k = some v := by
  induction m with
  | nil => simp [mset, mlookup]
  | cons hd tl ih =>
    obtain ⟨k', v'⟩ := hd
    by_cases h : k' = k <;> simp [mset, mlookup, h, ih]

theorem mlookup_merase (m : List (String × α)) (k : String) :
    mlookup (merase m k) k = none := by
  induction m with
  | nil => rfl
  | cons hd tl ih =>
    by_cases h : hd.1 = k
    · simpa [merase, List.filter_cons, h] using ih
    · simpa [merase, List.filter_cons, h, mlookup] using ih

theorem mcount_eq_zero_of_mlookup_none (m : List (String × α)) (k : String)
    (h : mlookup m k = none) : mcount m k = 0 := by
  induction m with
  | nil => rfl
  | cons hd tl ih =>
    obtain ⟨k', v'⟩ := hd
    by_cases hk : k' = k
    · simp [mlookup, hk] at h
    · simp only [mlookup, if_neg hk] at h
      simp [mcount, List.filter_cons, hk, mcount] at ih ⊢
      exact ih h

theorem mcount_mset_of_mlookup_none (m : List (String × α)) (k : String) (v : α)
    (h : mlookup m k = none) : mcount (mset m k v) k = 1 := by
  induction m with
  | nil => simp [mset, mcount, List.filter_cons]
  | cons hd tl ih =>
    obtain ⟨k', v'⟩ := hd
    by_cases hk : k' = k
    · simp [mlookup, hk] at h
    · simp only [mlookup, if_neg hk] at h
      simp [mset, mcount, List.filter_cons, hk] at ih ⊢
      exact ih h

/-! ### Claim theorems -/

/-- Claim C7, counterexample: with an empty registry (no prior registration
for `doc1`), `updateContent('doc1', 'new')` is not a no-op — it creates a
fresh entry for the derived identifier. -/
theorem C7_counterexample :
    updateContent [] "doc1" "new" ≠ [] ∧
    mlookup (updateContent [] "doc1" "new") (deriveDocId "doc1") = some "new" := by
  decide

/-- Claim C7 (amended): for a document id with no prior registration,
`updateContent(id, text)` mutates the registry: it creates a new entry for
the derived identifier holding `text` (the `set` call is unconditional; the
no-op-when-unregistered behaviour described by the spec is not implemented). -/
theorem C7_update_creates_entry (cm : List (String × String)) (uri text : String)
    (h : mlookup cm (deriveDocId uri) = none) :
    mlookup (updateContent cm uri text) (deriveDocId uri) = some text ∧
    mcount (updateContent cm uri text) (deriveDocId uri) = 1 := by
  refine ⟨?_, ?_⟩
  · simpa [updateContent] using mlookup_mset_self cm (deriveDocId uri) text
  · simpa [updateContent] using mcount_mset_of_mlookup_none cm (deriveDocId uri) text h

/-- Claim C7 witness: the amended statement instantiated at the empty
registry and `doc1`. -/
theorem C7_witness :
    mlookup ([] : List (String × String)) (deriveDocId "doc1") = none ∧
    mlookup (updateContent [] "doc1" "new") (deriveDocId "doc1") = some "new" := by
  exact ⟨rfl, (C7_update_creates_entry [] "doc1" "new" rfl).1⟩

/-- Claim C9, counterexample: the derived identifier is not
collision-resistant. These two distinct 25-byte document ids share their
first 24 bytes, so their base64 encodings agree on the first 32 characters
and the truncated identifiers coincide. -/
theorem C9_counterexample :
    deriveDocId "aaaaaaaaaaaaaaaaaaaaaaaaX" = deriveDocId "aaaaaaaaaaaaaaaaaaaaaaaaY" ∧
    ("aaaaaaaaaaaaaaaaaaaaaaaaX" : String) ≠ "aaaaaaaaaaaaaaaaaaaaaaaaY" := by
  decide

/-- Claim C9 (amended): the identifier derivation is deterministic and
shared by `registerContent`, `updateContent` and `removeContent` — an update
after a registration overwrites exactly the registered entry, and a removal
after a registration deletes it — but it is not collision-resistant:
distinct document ids may derive the same identifier (see the
counterexample), because the base64 encoding is stripped and truncated to 32
characters. -/
theorem C9_id_stable (port : Nat) (cm : List (String × String)) (uri t1 t2 : String) :
    mlookup (updateContent (registerContent port cm uri t1).1 uri t2)
        (deriveDocId uri) = some t2 ∧
    mlookup (removeContent (registerContent port cm uri t1).1 uri)
        (deriveDocId uri) = none := by
  refine ⟨?_, ?_⟩
  · simpa [registerContent, updateContent] using
      mlookup_mset_self (mset cm (deriveDocId uri) t1) (deriveDocId uri) t2
  · simpa [registerContent, removeContent] using
      mlookup_merase (mset cm (deriveDocId uri) t1) (deriveDocId uri)

/-- Claim C8, counterexample: after two independent `watch` registrations
(host subscriptions 1,2,3 and 4,5,6), running the cancellation handle
returned by the first registration — whose body is `() => this.dispose()` —
empties the whole watcher: the second registration's subscriptions do not
survive. -/
theorem C8_counterexample :
    (watchHandleDispose
        (FileWatcher.watch (FileWatcher.watch ⟨[], none, 500⟩ ⟨1, 2, 3⟩) ⟨4, 5, 6⟩)).disposables
      = [] ∧
    ¬ (4 ∈ (watchHandleDispose
        (FileWatcher.watch (FileWatcher.watch ⟨[], none, 500⟩ ⟨1, 2, 3⟩) ⟨4, 5, 6⟩)).disposables) := by
  decide

/-- Claim C8 (amended): the cancellation handle returned by any `watch` call
invokes `FileWatcher.dispose`, which releases every registration's
subscriptions on the instance and cancels any pending debounced work — not
only the one registration's. -/
theorem C8_handle_disposes_all (w : FileWatcher) (subsA subsB : WatchSubs) :
    (watchHandleDispose (FileWatcher.watch (FileWatcher.watch w subsA) subsB)).disposables = [] ∧
    (watchHandleDispose (FileWatcher.watch (FileWatcher.watch w subsA) subsB)).debounceTimer = none := by
  exact ⟨rfl, rfl⟩

/-! ### `HttpServer` round-trip lemmas -/

theorem deriveDocId_no_slash (uri : String) :
    ∀ c ∈ (deriveDocId uri).data, c ≠ '/' := by
  intro c hc heq
  have hc' : c ∈ (b64Encode (strBytes uri)).filter jsAlphanum := by
    simpa [deriveDocId] using List.mem_of_mem_take hc
  have hj : jsAlphanum c = true := (List.mem_filter.mp hc').2
  subst heq
  exact absurd hj (by decide)

theorem takeWhile_no_slash (l : List Char) (h : ∀ c ∈ l, c ≠ '/') :
    l.takeWhile (fun c => c ≠ '/') = l := by
  induction l with
  | nil => rfl
  | cons c rest ih =>
    have hc : c ≠ '/' := h c (List.mem_cons_self c rest)
    have hrest := ih (fun x hx => h x (List.mem_cons_of_mem c hx))
    rw [List.takeWhile_cons_of_pos (by simp [hc]), hrest]

theorem data_ne_nil_of_ne_empty {s : String} (h : s ≠ "") : s.data ≠ [] := by
  cases s with
  | mk l =>
    intro hnil
    apply h
    have hl : l = [] := hnil
    rw [hl]

theorem matchDocPath_docId (docId : String) (h0 : docId ≠ "")
    (h : ∀ c ∈ docId.data, c ≠ '/') :
    matchDocPath ("/doc/" ++ docId) = some docId := by
  have hdata : ("/doc/" ++ docId).data =
      '/' :: 'd' :: 'o' :: 'c' :: '/' :: docId.data := by
    cases docId with
    | mk l => rfl
  have hne : docId.data ≠ [] := data_ne_nil_of_ne_empty h0
  have hempty : docId.data.isEmpty = false := by
    cases hd : docId.data with
    | nil => exact absurd hd hne
    | cons a t => rfl
  simp only [matchDocPath, hdata, takeWhile_no_slash docId.data h, hempty]
  cases docId with
  | mk l => simp

/-- Claim C3, counterexample: registering the empty string for `doc1` and
fetching the returned URL's path yields a 404, not a 200 carrying the empty
text — the handler's `!content` truthiness test treats the stored empty
string as missing. -/
theorem C3_counterexample :
    ¬ ((handleRequest (registerContent 3000 [] "doc1" "").1 "GET"
          ("/doc/" ++ deriveDocId "doc1")).status = 200 ∧
       (handleRequest (registerContent 3000 [] "doc1" "").1 "GET"
          ("/doc/" ++ deriveDocId "doc1")).body = "") := by
  decide

/-- Claim C3 (amended): for every document id whose derived identifier is
nonempty and every nonempty text, `registerContent` followed by a GET of the
returned URL's path yields exactly that text with status 200, and
`updateContent` with a nonempty `text2` followed by a GET of the same path
yields `text2` with status 200. (Registering the empty string is the one
exception: the handler's truthiness test then answers 404.) -/
theorem C3_roundtrip (port : Nat) (cm : List (String × String))
    (uri text text2 : String) (hid : deriveDocId uri ≠ "")
    (ht : text ≠ "") (ht2 : text2 ≠ "") :
    (registerContent port cm uri text).2 =
      getServerUrl port ++ "/doc/" ++ deriveDocId uri ∧
    (handleRequest (registerContent port cm uri text).1 "GET"
        ("/doc/" ++ deriveDocId uri)).status = 200 ∧
    (handleRequest (registerContent port cm uri text).1 "GET"
        ("/doc/" ++ deriveDocId uri)).body = text ∧
    (handleRequest (updateContent (registerContent port cm uri text).1 uri text2)
        "GET" ("/doc/" ++ deriveDocId uri)).status = 200 ∧
    (handleRequest (updateContent (registerContent port cm uri text).1 uri text2)
        "GET" ("/doc/" ++ deriveDocId uri)).body = text2 := by
  have hmatch := matchDocPath_docId (deriveDocId uri) hid (deriveDocId_no_slash uri)
  have hreg : (registerContent port cm uri text).1 = mset cm (deriveDocId uri) text := rfl
  have hlook : mlookup (registerContent port cm uri text).1 (deriveDocId uri) = some text := by
    rw [hreg]; exact mlookup_mset_self cm (deriveDocId uri) text
  have hlook2 :
      mlookup (updateContent (registerContent port cm uri text).1 uri text2)
        (deriveDocId uri) = some text2 := by
    rw [hreg]
    exact mlookup_mset_self (mset cm (deriveDocId uri) text) (deriveDocId uri) text2
  refine ⟨rfl, ?_, ?_, ?_, ?_⟩ <;>
    simp [handleRequest, hmatch, hlook, hlook2, jsFalsyStr, ht, ht2]

/-- Claim C3 witness: the amended round-trip instantiated at `doc1`,
`hello`, `new`. -/
theorem C3_witness :
    (handleRequest (registerContent 3000 [] "doc1" "hello").1 "GET"
        ("/doc/" ++ deriveDocId "doc1")).body = "hello" ∧
    (handleRequest (updateContent (registerContent 3000 [] "doc1" "hello").1 "doc1" "new")
        "GET" ("/doc/" ++ deriveDocId "doc1")).body = "new" := by
  obtain ⟨-, -, h1, -, h2⟩ :=
    C3_roundtrip 3000 [] "doc1" "hello" "new" (by decide) (by decide) (by decide)
  exact ⟨h1, h2⟩

/-- Claim C4: `isOpenApiDocument` answers true exactly when the extension
test and the content-marker test both succeed; a file failing the extension
test is rejected for every file system (its content is never consulted); a
file whose content cannot be read yields false. -/
theorem C4_classifier (fs : FileSys) (fsPath : String) :
    (∀ content, fs fsPath = some content →
      (isOpenApiDocument fs fsPath = true ↔
        (hasOpenApiExtension fsPath = true ∧ hasOpenApiMarker content = true))) ∧
    (hasOpenApiExtension fsPath = false →
      ∀ fs' : FileSys, isOpenApiDocument fs' fsPath = false) ∧
    (fs fsPath = none → isOpenApiDocument fs fsPath = false) := by
  refine ⟨?_, ?_, ?_⟩
  · intro content hc
    by_cases hext : hasOpenApiExtension fsPath <;>
      simp [isOpenApiDocument, hext, hc]
  · intro hext fs'
    simp [isOpenApiDocument, hext]
  · intro hn
    by_cases hext : hasOpenApiExtension fsPath <;>
      simp [isOpenApiDocument, hext, hn]

/-- A concrete host file system for the classifier witness: a `.yaml` and a
`.txt` path both opening to the same OpenAPI text. -/
def fsW : FileSys := fun p =>
  if p = "/tmp/a.yaml" then some "openapi: 3.0.0"
  else if p = "/tmp/a.txt" then some "openapi: 3.0.0" else none

/-- Claim C4 witness: `a.yaml` with a marker classifies true; the same
content under `a.txt` classifies false (extension test fails). -/
theorem C4_witness :
    isOpenApiDocument fsW "/tmp/a.yaml" = true ∧
    isOpenApiDocument fsW "/tmp/a.txt" = false := by
  constructor
  · exact ((C4_classifier fsW "/tmp/a.yaml").1 "openapi: 3.0.0" rfl).mpr
      ⟨by decide, by decide⟩
  · exact (C4_classifier fsW "/tmp/a.txt").2.1 (by decide) fsW

/-- Claim C6: whenever the host returns raw bytes longer than
`MAX_FILE_SIZE = 10 * 1024 * 1024`, `readFile` fails with a `TooLarge`
error; and the outcome is determined by the raw byte count alone — any raw
file of the same oversized byte count produces the identical result, no
matter what its bytes would decode to (the check precedes decoding). -/
theorem C6_too_large (fs : ReadFs) (uri : String) (data : RawFile)
    (hfs : fs uri = .ok data) (hsize : data.byteLength > MAX_FILE_SIZE) :
    readFile fs uri = ⟨false, none, some ⟨.TooLarge, uri⟩⟩ ∧
    (∀ fs' : ReadFs, ∀ data' : RawFile, fs' uri = .ok data' →
      data'.byteLength = data.byteLength →
      readFile fs' uri = ⟨false, none, some ⟨.TooLarge, uri⟩⟩) := by
  constructor
  · simp [readFile, hfs, hsize]
  · intro fs' data' hfs' hlen
    have : data'.byteLength > MAX_FILE_SIZE := hlen ▸ hsize
    simp [readFile, hfs', this]

/-- The host file system for the C6 witness: an 11 MiB file. -/
def fsBig : ReadFs := fun _ => .ok ⟨11 * 1024 * 1024, "spec text"⟩

/-- Claim C6 witness: reading an 11 MiB file yields a `TooLarge` error. -/
theorem C6_witness :
    readFile fsBig "/tmp/big.yaml" =
      ⟨false, none, some ⟨.TooLarge, "/tmp/big.yaml"⟩⟩ := by
  exact (C6_too_large fsBig "/tmp/big.yaml" ⟨11 * 1024 * 1024, "spec text"⟩
    rfl (by decide)).1

/-- Claim C10, counterexample: the preview-creation path does not accept
content of every length — a document whose text is empty (length 0) is
routed to the error view by the `!readResult.content` truthiness test, and
no content is registered with the server for it. -/
theorem C10_counterexample :
    ¬ (mlookup (createPreview ⟨⟨none, "beside"⟩, false, ⟨1, 2, 3⟩, 3000⟩
          ⟨"file:///e.yaml", "/e.yaml", ""⟩ 2 ⟨[], [], []⟩).contentMap
        (deriveDocId "file:///e.yaml") = some "") := by
  decide

/-- Claim C10 (amended): `readFromDocument` always returns a successful
result carrying the document's full text — no size check is applied, for
text of every length — and the preview-creation path registers content of
every nonzero length with the server (the 10 MiB ceiling lives only in
`readFile`); only the empty text is diverted to the error view by a
truthiness test. -/
theorem C10_no_size_check (doc : TextDocument) (env : PMEnv) (c : Int)
    (st : PMState) (h : doc.text ≠ "") :
    readFromDocument doc = ⟨true, some doc.text, none⟩ ∧
    mlookup (createPreview env doc c st).contentMap (deriveDocId doc.uriString) =
      some doc.text := by
  constructor
  · rfl
  · simp only [createPreview, readFromDocument, jsFalsyStr, registerContent,
      Bool.not_true, Bool.false_or, h, decide_eq_true_eq]
    simp [h]
    exact mlookup_mset_self st.contentMap (deriveDocId doc.uriString) doc.text

/-- Claim C10 witness: the amended statement at a small nonempty document;
oversized documents are covered by the theorem's universal quantifier. -/
theorem C10_witness :
    mlookup (createPreview ⟨⟨none, "beside"⟩, false, ⟨1, 2, 3⟩, 3000⟩
        ⟨"file:///w.yaml", "/w.yaml", "openapi: 3.0.0"⟩ 2 ⟨[], [], []⟩).contentMap
      (deriveDocId "file:///w.yaml") = some "openapi: 3.0.0" := by
  exact (C10_no_size_check ⟨"file:///w.yaml", "/w.yaml", "openapi: 3.0.0"⟩
    ⟨⟨none, "beside"⟩, false, ⟨1, 2, 3⟩, 3000⟩ 2 ⟨[], [], []⟩ (by decide)).2

/-! ### `PreviewManager` lemmas -/

theorem createPreview_previews (env : PMEnv) (doc : TextDocument) (c : Int)
    (st : PMState) :
    (createPreview env doc c st).previews =
      mset st.previews doc.uriString
        ⟨some c, c, FileWatcher.watch ⟨[], none, 500⟩ env.watchSubs, doc⟩ := by
  simp only [createPreview]
  split <;> rfl

theorem createPreview_lastCols (env : PMEnv) (doc : TextDocument) (c : Int)
    (st : PMState) :
    (createPreview env doc c st).lastColumnPositions =
      mset st.lastColumnPositions doc.uriString c := by
  simp only [createPreview]
  split <;> rfl

theorem disposePreview_previews (st : PMState) (uri : String)
    (p : PreviewPanelModel) (h : mlookup st.previews uri = some p) :
    (disposePreview st uri).previews = merase st.previews uri := by
  simp only [disposePreview, h]

theorem disposePreview_lastCols (st : PMState) (uri : String)
    (p : PreviewPanelModel) (c : Int)
    (h : mlookup st.previews uri = some p) (hc : p.viewColumn = some c) :
    (disposePreview st uri).lastColumnPositions =
      mset st.lastColumnPositions uri c := by
  simp only [disposePreview, h, hc]

theorem createOrShow_none (env : PMEnv) (doc : TextDocument) (st : PMState)
    (h : mlookup st.previews doc.uriString = none) :
    createOrShowPreview env doc none st =
      createPreview env doc
        (jsOr none (jsOr (mlookup st.lastColumnPositions doc.uriString)
          (getPreviewColumn env.host))) st := by
  simp only [createOrShowPreview, h]

theorem createOrShow_some (env : PMEnv) (doc : TextDocument) (st : PMState)
    (p : PreviewPanelModel) (h : mlookup st.previews doc.uriString = some p) :
    createOrShowPreview env doc none st =
      if env.revealFails then
        createPreview env doc
          (jsOr none (jsOr (mlookup (disposePreview st doc.uriString).lastColumnPositions
            doc.uriString) (getPreviewColumn env.host)))
          (disposePreview st doc.uriString)
      else st := by
  simp only [createOrShowPreview, h]

/-- Claim C1: starting from a state with no session for the document, two
consecutive `createOrShowPreview` calls leave exactly one entry for it in
the session map; and when the reveal succeeds, the second call changes
nothing at all. -/
theorem C1_single_session (env1 env2 : PMEnv) (doc : TextDocument) (st : PMState)
    (h : mlookup st.previews doc.uriString = none) :
    mcount (createOrShowPreview env2 doc none
        (createOrShowPreview env1 doc none st)).previews doc.uriString = 1 ∧
    (env2.revealFails = false →
      createOrShowPreview env2 doc none (createOrShowPreview env1 doc none st) =
        createOrShowPreview env1 doc none st) := by
  have h1 := createOrShow_none env1 doc st h
  have hprev1 : (createOrShowPreview env1 doc none st).previews =
      mset st.previews doc.uriString
        ⟨some (jsOr none (jsOr (mlookup st.lastColumnPositions doc.uriString)
            (getPreviewColumn env1.host))),
         jsOr none (jsOr (mlookup st.lastColumnPositions doc.uriString)
            (getPreviewColumn env1.host)),
         FileWatcher.watch ⟨[], none, 500⟩ env1.watchSubs, doc⟩ := by
    rw [h1, createPreview_previews]
  have hlook1 : mlookup (createOrShowPreview env1 doc none st).previews
      doc.uriString =
      some ⟨some (jsOr none (jsOr (mlookup st.lastColumnPositions doc.uriString)
            (getPreviewColumn env1.host))),
         jsOr none (jsOr (mlookup st.lastColumnPositions doc.uriString)
            (getPreviewColumn env1.host)),
         FileWatcher.watch ⟨[], none, 500⟩ env1.watchSubs, doc⟩ := by
    rw [hprev1]; exact mlookup_mset_self _ _ _
  have h2 := createOrShow_some env2 doc (createOrShowPreview env1 doc none st)
    _ hlook1
  constructor
  · rw [h2]
    by_cases hr : env2.revealFails
    · rw [if_pos hr, createPreview_previews,
        disposePreview_previews _ _ _ hlook1]
      exact mcount_mset_of_mlookup_none _ _ _ (mlookup_merase _ _)
    · rw [if_neg (by simp [hr]), hprev1]
      exact mcount_mset_of_mlookup_none _ _ _ h
  · intro hr
    rw [h2, if_neg (by simp [hr])]

/-- Claim C1 witness: two calls on the empty coordinator state leave exactly
one session entry. -/
theorem C1_witness :
    mlookup (⟨[], [], []⟩ : PMState).previews "file:///w.yaml" = none ∧
    mcount (createOrShowPreview ⟨⟨none, "beside"⟩, false, ⟨1, 2, 3⟩, 3000⟩
        ⟨"file:///w.yaml", "/w.yaml", "openapi: 3.0.0"⟩ none
        (createOrShowPreview ⟨⟨none, "beside"⟩, false, ⟨1, 2, 3⟩, 3000⟩
          ⟨"file:///w.yaml", "/w.yaml", "openapi: 3.0.0"⟩ none
          ⟨[], [], []⟩)).previews "file:///w.yaml" = 1 := by
  refine ⟨rfl, ?_⟩
  exact (C1_single_session ⟨⟨none, "beside"⟩, false, ⟨1, 2, 3⟩, 3000⟩
    ⟨⟨none, "beside"⟩, false, ⟨1, 2, 3⟩, 3000⟩
    ⟨"file:///w.yaml", "/w.yaml", "openapi: 3.0.0"⟩ ⟨[], [], []⟩ rfl).1

/-- Claim C5: for an active session whose panel sits in column `c`,
disposing it saves `c` into column memory, and a subsequent
`createOrShowPreview` with no explicit column reopens the preview in that
same column `c` — for every host environment, i.e. regardless of what the
freshly computed default column would have been. -/
theorem C5_column_restored (env : PMEnv) (doc : TextDocument) (st : PMState)
    (p : PreviewPanelModel) (c : Int)
    (hp : mlookup st.previews doc.uriString = some p)
    (hc : p.viewColumn = some c) (hc0 : c ≠ 0) :
    mlookup (disposePreview st doc.uriString).lastColumnPositions
      doc.uriString = some c ∧
    mlookup (createOrShowPreview env doc none
        (disposePreview st doc.uriString)).previews doc.uriString =
      some ⟨some c, c, FileWatcher.watch ⟨[], none, 500⟩ env.watchSubs, doc⟩ := by
  have hlcp := disposePreview_lastCols st doc.uriString p c hp hc
  have hprev := disposePreview_previews st doc.uriString p hp
  have hlookm : mlookup (disposePreview st doc.uriString).previews
      doc.uriString = none := by
    rw [hprev]; exact mlookup_merase _ _
  have hmem : mlookup (disposePreview st doc.uriString).lastColumnPositions
      doc.uriString = some c := by
    rw [hlcp]; exact mlookup_mset_self _ _ _
  refine ⟨hmem, ?_⟩
  rw [createOrShow_none env doc (disposePreview st doc.uriString) hlookm]
  have hcol : jsOr none (jsOr (mlookup (disposePreview st doc.uriString).lastColumnPositions
      doc.uriString) (getPreviewColumn env.host)) = c := by
    rw [hmem]
    simp [jsOr, hc0]
  rw [hcol, createPreview_previews]
  exact mlookup_mset_self _ _ _

theorem C5_witness :
    mlookup (createOrShowPreview ⟨⟨some (some 1), "beside"⟩, false, ⟨4, 5, 6⟩, 3000⟩
        ⟨"file:///w.yaml", "/w.yaml", "openapi: 3.0.0"⟩ none
        (disposePreview
          ⟨[("file:///w.yaml",
             ⟨some 2, 2, ⟨[1, 2, 3], none, 500⟩,
              ⟨"file:///w.yaml", "/w.yaml", "openapi: 3.0.0"⟩⟩)], [], []⟩
          "file:///w.yaml")).previews "file:///w.yaml" =
      some ⟨some 2, 2, FileWatcher.watch ⟨[], none, 500⟩ ⟨4, 5, 6⟩,
        ⟨"file:///w.yaml", "/w.yaml", "openapi: 3.0.0"⟩⟩ := by
  exact (C5_column_restored ⟨⟨some (some 1), "beside"⟩, false, ⟨4, 5, 6⟩, 3000⟩
    ⟨"file:///w.yaml", "/w.yaml", "openapi: 3.0.0"⟩
    ⟨[("file:///w.yaml",
       ⟨some 2, 2, ⟨[1, 2, 3], none, 500⟩,
        ⟨"file:///w.yaml", "/w.yaml", "openapi: 3.0.0"⟩⟩)], [], []⟩
    ⟨some 2, 2, ⟨[1, 2, 3], none, 500⟩,
     ⟨"file:///w.yaml", "/w.yaml", "openapi: 3.0.0"⟩⟩ 2 rfl rfl (by decide)).2

/-! ### Debounce lemmas -/

theorem debounceStep_no_fire (st : DebounceRun) (e : Edit) (delay : Nat)
    (hd : st.watcher.debounceDelay = delay)
    (ht : ∀ f, st.watcher.debounceTimer = some f → e.time < f) :
    debounceStep st e =
      ⟨⟨st.watcher.disposables, some (e.time + delay), delay⟩,
       e.textAfter, st.delivered⟩ := by
  obtain ⟨⟨ds, dt, dd⟩, txt, dlv⟩ := st
  simp only at hd ht
  subst hd
  cases dt with
  | none => simp [debounceStep]
  | some f =>
    have hf := ht f rfl
    have hnot : ¬ f ≤ e.time := by omega
    simp [debounceStep, hnot]

theorem foldl_debounce_within (delay : Nat) (e : Edit) (es : List Edit)
    (st : DebounceRun)
    (hw : withinWindow delay (e :: es) = true)
    (hd : st.watcher.debounceDelay = delay)
    (ht : ∀ f, st.watcher.debounceTimer = some f → e.time < f) :
    (e :: es).foldl debounceStep st =
      ⟨⟨st.watcher.disposables,
        some (((e :: es).getLast (List.cons_ne_nil e es)).time + delay), delay⟩,
       ((e :: es).getLast (List.cons_ne_nil e es)).textAfter,
       st.delivered⟩ := by
  induction es generalizing e st with
  | nil =>
    rw [List.foldl_cons, List.foldl_nil, debounceStep_no_fire st e delay hd ht]
    rfl
  | cons e2 rest ih =>
    simp only [withinWindow, Bool.and_eq_true, decide_eq_true_eq] at hw
    rw [List.foldl_cons, debounceStep_no_fire st e delay hd ht]
    have hres := ih e2 ⟨⟨st.watcher.disposables, some (e.time + delay), delay⟩,
        e.textAfter, st.delivered⟩ hw.2 rfl
      (fun f hf => by
        have h2 := Option.some.inj hf
        omega)
    rw [hres]
    simp [List.getLast_cons]

/-- Claim C2: a nonempty sequence of edits all falling inside one debounce
window produces exactly one `onChange` delivery, and it carries the text of
the last edit — earlier edits in the window are never delivered. -/
theorem C2_debounce (delay : Nat) (initialText : String) (e : Edit)
    (es : List Edit) (hw : withinWindow delay (e :: es) = true) :
    runEdits delay initialText (e :: es) =
      [((e :: es).getLast (List.cons_ne_nil e es)).textAfter] := by
  unfold runEdits
  rw [foldl_debounce_within delay e es ⟨⟨[], none, delay⟩, initialText, []⟩ hw rfl
    (fun f hf => Option.noConfusion hf)]
  rfl

/-- Claim C2 witness: three edits at 0, 100 and 400 ms with the default
500 ms delay yield the single delivery `v3`. -/
theorem C2_witness :
    withinWindow 500 [⟨0, "v1"⟩, ⟨100, "v2"⟩, ⟨400, "v3"⟩] = true ∧
    runEdits 500 "v0" [⟨0, "v1"⟩, ⟨100, "v2"⟩, ⟨400, "v3"⟩] = ["v3"] := by
  refine ⟨by decide, ?_⟩
  exact C2_debounce 500 "v0" ⟨0, "v1"⟩ [⟨100, "v2"⟩, ⟨400, "v3"⟩] (by decide)

end Stoplight
